import Mathlib

/-!
# Verification of the perfSONAR measurement-archive client (perfsonar-mcp)

Shallow embedding of the TypeScript core of the repository: the
`PerfSONARClient` query client (`src/client.ts`) and the MCP server shell
(`src/index.ts`), against the data model of `src/types.ts`.

The archive's HTTP behaviour is abstracted as an `Archive` record of
response functions; every client operation is embedded as a pure function
returning the list of HTTP requests it issued (its trace) together with
its `Except`-typed outcome, so that both the request shapes and the error
propagation of the source can be stated and proved.

JavaScript truthiness (`undefined`, `""` and `0` are falsy) is modelled
explicitly by `jsTruthyStr` / `jsTruthyNat`, because the source branches
on raw truthiness of optional parameters (e.g. `params.summaryType &&
params.summaryWindow`).
-/

namespace PerfSONAR

/-- `EventSummary` from `types.ts`: one pre-computed aggregation. -/
structure EventSummary where
  uri : String
  summaryType : String
  summaryWindow : Nat
  timeUpdated : Option Nat := none
  deriving Repr, DecidableEq

/-- `EventType` from `types.ts`: one event-type descriptor of a series
(`event-type`, `base-uri`, optional `summaries`, optional `time-updated`). -/
structure EventType where
  eventType : String
  baseUri : String
  summaries : Option (List EventSummary) := none
  timeUpdated : Option Nat := none
  deriving Repr, DecidableEq

/-- `MeasurementMetadata` from `types.ts`: one discovered measurement series. -/
structure MeasurementMetadata where
  url : String
  metadataKey : String
  source : String
  destination : String
  measurementAgent : String
  inputSource : String
  inputDestination : String
  toolName : String
  subjectType : String
  eventTypes : List EventType
  timeDuration : Option Nat := none
  ipTransportProtocol : Option String := none
  deriving Repr, DecidableEq

/-- `TimeSeriesDataPoint` from `types.ts` (`{ts, val}`); the numeric value is
modelled as an integer, since the client never computes on it. -/
structure TimeSeriesDataPoint where
  ts : Nat
  val : Int
  deriving Repr, DecidableEq

/-- `MeasurementQueryParams` from `types.ts`: the optional filter record for
`queryMeasurements`. Absent (`undefined`) fields are `none`. -/
structure MeasurementQueryParams where
  source : Option String := none
  destination : Option String := none
  eventType : Option String := none
  toolName : Option String := none
  measurementAgent : Option String := none
  timeStart : Option Nat := none
  timeEnd : Option Nat := none
  timeRange : Option Nat := none
  limit : Option Nat := none
  deriving Repr, DecidableEq

/-- `MeasurementDataParams` from `types.ts`: arguments of `getMeasurementData`. -/
structure MeasurementDataParams where
  metadataKey : String
  eventType : String
  summaryType : Option String := none
  summaryWindow : Option Nat := none
  timeStart : Option Nat := none
  timeEnd : Option Nat := none
  timeRange : Option Nat := none
  deriving Repr, DecidableEq

/-- `MeasurementResult` from `types.ts`: one series paired with its data. -/
structure MeasurementResult where
  metadata : MeasurementMetadata
  data : List TimeSeriesDataPoint
  deriving Repr, DecidableEq

/-- The `timeRange`/`summaryWindow` options of the three composite client
methods (`getThroughput`, `getLatency`, `getPacketLoss`). -/
structure CompositeOptions where
  timeRange : Option Nat := none
  summaryWindow : Option Nat := none
  deriving Repr, DecidableEq

/-- JS truthiness of an optional string: `undefined` and `""` are falsy. -/
def jsTruthyStr : Option String → Bool
  | none => false
  | some s => s != ""

/-- JS truthiness of an optional number: `undefined` and `0` are falsy. -/
def jsTruthyNat : Option Nat → Bool
  | none => false
  | some n => n != 0

/-- An axios error as observed by the client's `catch` blocks: the error
`message` and, when the archive answered with an error body, that body
serialized (`JSON.stringify(error.response.data)`); `none` models an
absent (or falsy) `error.response?.data`. -/
structure AxiosError where
  message : String
  responseData : Option String := none
  deriving Repr, DecidableEq

/-- The ``` - ${JSON.stringify(error.response.data)}`` suffix appended to
wrapped error messages when the archive returned an error body. -/
def axiosSuffix (e : AxiosError) : String :=
  match e.responseData with
  | some d => " - " ++ d
  | none => ""

/-- `throw new Error(`${head}: ${error.message}${...}`)`: the error-wrapping
used by `queryMeasurements` and `getMeasurementData`. -/
def wrapError (head : String) (e : AxiosError) : String :=
  head ++ ": " ++ e.message ++ axiosSuffix e

/-- One HTTP request issued by the client: either the metadata listing
`GET /` with query parameters, or a data fetch `GET path` with query
parameters. -/
inductive Request where
  | list (params : List (String × String))
  | data (path : String) (params : List (String × String))
  deriving Repr, DecidableEq

/-- Whether a request is a metadata-listing (`GET /`) request. -/
def Request.isList : Request → Bool
  | .list _ => true
  | .data _ _ => false

/-- The sequence of HTTP requests a client operation issued. -/
abbrev Trace := List Request

/-- The archive's behaviour, abstracted: `list` answers `GET /` (metadata
query), `data` answers `GET {path}` (data fetch); each either succeeds with
a decoded body or fails with an axios-level error. -/
structure Archive where
  list : List (String × String) → Except AxiosError (List MeasurementMetadata)
  data : String → List (String × String) → Except AxiosError (List TimeSeriesDataPoint)

/-- Key/value list for one optional query parameter: present exactly when
the value is defined (axios omits `undefined`/`null` parameters). -/
def optEntry (name : String) : Option String → List (String × String)
  | some v => [(name, v)]
  | none => []

/-- The query parameters axios sends for `GET /` given a
`MeasurementQueryParams` record: exactly the defined fields, under the
archive's wire names. -/
def sentParams (p : MeasurementQueryParams) : List (String × String) :=
  optEntry "source" p.source ++
  optEntry "destination" p.destination ++
  optEntry "event-type" p.eventType ++
  optEntry "tool-name" p.toolName ++
  optEntry "measurement-agent" p.measurementAgent ++
  optEntry "time-start" (p.timeStart.map toString) ++
  optEntry "time-end" (p.timeEnd.map toString) ++
  optEntry "time-range" (p.timeRange.map toString) ++
  optEntry "limit" (p.limit.map toString)

/-- `PerfSONARClient.queryMeasurements`: one `GET /` with the filter as
query parameters; on an axios error the message is wrapped with
`Failed to query measurements`. Returns the issued trace and the outcome. -/
def queryMeasurements (a : Archive) (p : MeasurementQueryParams) :
    Trace × Except String (List MeasurementMetadata) :=
  ([Request.list (sentParams p)],
   match a.list (sentParams p) with
   | .ok r => .ok r
   | .error e => .error (wrapError "Failed to query measurements" e))

/-- The URL path built by `getMeasurementData`: `/{metadataKey}/{eventType}`
then `/{summaryType}/{summaryWindow}` when both are (JS-)truthy, else
`/base`. -/
def dataPath (p : MeasurementDataParams) : String :=
  let path := "/" ++ p.metadataKey ++ "/" ++ p.eventType
  if jsTruthyStr p.summaryType && jsTruthyNat p.summaryWindow then
    path ++ "/" ++ p.summaryType.getD "" ++ "/" ++ toString (p.summaryWindow.getD 0)
  else
    path ++ "/base"

/-- The query parameters built by `getMeasurementData`: each time filter is
included when (JS-)truthy (`if (params.timeStart) ...`). -/
def dataQueryParams (p : MeasurementDataParams) : List (String × String) :=
  (if jsTruthyNat p.timeStart then [("time-start", toString (p.timeStart.getD 0))] else []) ++
  (if jsTruthyNat p.timeEnd then [("time-end", toString (p.timeEnd.getD 0))] else []) ++
  (if jsTruthyNat p.timeRange then [("time-range", toString (p.timeRange.getD 0))] else [])

/-- The single HTTP request `getMeasurementData` issues for given params. -/
def dataRequest (p : MeasurementDataParams) : Request :=
  Request.data (dataPath p) (dataQueryParams p)

/-- `PerfSONARClient.getMeasurementData`: one `GET` on the constructed path;
on an axios error the message is wrapped with `Failed to get measurement
data`. Returns the issued trace and the outcome. -/
def getMeasurementData (a : Archive) (p : MeasurementDataParams) :
    Trace × Except String (List TimeSeriesDataPoint) :=
  ([dataRequest p],
   match a.data (dataPath p) (dataQueryParams p) with
   | .ok r => .ok r
   | .error e => .error (wrapError "Failed to get measurement data" e))

/-- The metadata filter `getThroughput` uses:
`{source, destination, "event-type": "throughput"}`. -/
def throughputQuery (source destination : String) : MeasurementQueryParams :=
  { source := some source, destination := some destination, eventType := some "throughput" }

/-- The metadata filter `getPacketLoss` uses. -/
def packetLossQuery (source destination : String) : MeasurementQueryParams :=
  { source := some source, destination := some destination,
    eventType := some "packet-loss-rate" }

/-- The first metadata filter `getLatency` tries (`histogram-owdelay`). -/
def owdelayQuery (source destination : String) : MeasurementQueryParams :=
  { source := some source, destination := some destination,
    eventType := some "histogram-owdelay" }

/-- The fallback metadata filter of `getLatency` (`histogram-rtt`). -/
def rttQuery (source destination : String) : MeasurementQueryParams :=
  { source := some source, destination := some destination,
    eventType := some "histogram-rtt" }

/-- Whether a series' `event-types` descriptor list contains the named
event type (the `meta["event-types"].find(...)` re-check of the loops). -/
def hasEvent (name : String) (meta : MeasurementMetadata) : Bool :=
  (meta.eventTypes.find? (fun e => e.eventType == name)).isSome

/-- The `getMeasurementData` arguments `getThroughput` builds per series:
`summaryType = "averages"` exactly when `options.summaryWindow` is truthy. -/
def throughputFetchParams (opts : CompositeOptions) (meta : MeasurementMetadata) :
    MeasurementDataParams :=
  { metadataKey := meta.metadataKey
    eventType := "throughput"
    summaryType := if jsTruthyNat opts.summaryWindow then some "averages" else none
    summaryWindow := opts.summaryWindow
    timeRange := opts.timeRange }

/-- The `getMeasurementData` arguments `getPacketLoss` builds per series:
`summaryType = "aggregations"` exactly when `options.summaryWindow` is truthy. -/
def packetLossFetchParams (opts : CompositeOptions) (meta : MeasurementMetadata) :
    MeasurementDataParams :=
  { metadataKey := meta.metadataKey
    eventType := "packet-loss-rate"
    summaryType := if jsTruthyNat opts.summaryWindow then some "aggregations" else none
    summaryWindow := opts.summaryWindow
    timeRange := opts.timeRange }

/-- The `getMeasurementData` arguments `getLatency` builds for a series and
the event type it selected: `summaryType = "statistics"` exactly when
`options.summaryWindow` is truthy. -/
def latencyFetchParams (opts : CompositeOptions) (meta : MeasurementMetadata)
    (eventTypeName : String) : MeasurementDataParams :=
  { metadataKey := meta.metadataKey
    eventType := eventTypeName
    summaryType := if jsTruthyNat opts.summaryWindow then some "statistics" else none
    summaryWindow := opts.summaryWindow
    timeRange := opts.timeRange }

/-- The per-series fan-out loop of `getThroughput`: skip series without a
`throughput` descriptor, fetch data for the rest in order; a fetch error
aborts the loop (the thrown error propagates). -/
def throughputLoop (a : Archive) (opts : CompositeOptions) :
    List MeasurementMetadata → Trace × Except String (List MeasurementResult)
  | [] => ([], .ok [])
  | meta :: rest =>
    match meta.eventTypes.find? (fun e => e.eventType == "throughput") with
    | none => throughputLoop a opts rest
    | some _ =>
      match getMeasurementData a (throughputFetchParams opts meta) with
      | (reqs, .error e) => (reqs, .error e)
      | (reqs, .ok d) =>
        match throughputLoop a opts rest with
        | (reqs2, .ok results) =>
            (reqs ++ reqs2, .ok ({ metadata := meta, data := d } :: results))
        | (reqs2, .error e) => (reqs ++ reqs2, .error e)

/-- `PerfSONARClient.getThroughput`: metadata query filtered on
`event-type = "throughput"`, then the per-series fan-out. -/
def getThroughput (a : Archive) (source destination : String)
    (opts : CompositeOptions) : Trace × Except String (List MeasurementResult) :=
  match queryMeasurements a (throughputQuery source destination) with
  | (reqs, .error e) => (reqs, .error e)
  | (reqs, .ok metadata) =>
    let r := throughputLoop a opts metadata
    (reqs ++ r.1, r.2)

/-- The per-series fan-out loop of `getPacketLoss` (same shape as
`throughputLoop`, target event type `packet-loss-rate`). -/
def packetLossLoop (a : Archive) (opts : CompositeOptions) :
    List MeasurementMetadata → Trace × Except String (List MeasurementResult)
  | [] => ([], .ok [])
  | meta :: rest =>
    match meta.eventTypes.find? (fun e => e.eventType == "packet-loss-rate") with
    | none => packetLossLoop a opts rest
    | some _ =>
      match getMeasurementData a (packetLossFetchParams opts meta) with
      | (reqs, .error e) => (reqs, .error e)
      | (reqs, .ok d) =>
        match packetLossLoop a opts rest with
        | (reqs2, .ok results) =>
            (reqs ++ reqs2, .ok ({ metadata := meta, data := d } :: results))
        | (reqs2, .error e) => (reqs ++ reqs2, .error e)

/-- `PerfSONARClient.getPacketLoss`. -/
def getPacketLoss (a : Archive) (source destination : String)
    (opts : CompositeOptions) : Trace × Except String (List MeasurementResult) :=
  match queryMeasurements a (packetLossQuery source destination) with
  | (reqs, .error e) => (reqs, .error e)
  | (reqs, .ok metadata) =>
    let r := packetLossLoop a opts metadata
    (reqs ++ r.1, r.2)

/-- The fixed preference order of `getLatency`'s inner loop. -/
def latencyEventTypes : List String := ["histogram-owdelay", "histogram-rtt"]

/-- The event type `getLatency`'s inner `for ... break` loop settles on for
one series: the first name of `latencyEventTypes` present in the series'
descriptor list (`none` when neither is present). -/
def latencySelect (meta : MeasurementMetadata) : Option String :=
  latencyEventTypes.find?
    (fun n => (meta.eventTypes.find? (fun e => e.eventType == n)).isSome)

/-- The per-series fan-out loop of `getLatency`: for each series, fetch
data for the selected event type (if any) and emit one result, else skip. -/
def latencyLoop (a : Archive) (opts : CompositeOptions) :
    List MeasurementMetadata → Trace × Except String (List MeasurementResult)
  | [] => ([], .ok [])
  | meta :: rest =>
    match latencySelect meta with
    | none => latencyLoop a opts rest
    | some name =>
      match getMeasurementData a (latencyFetchParams opts meta name) with
      | (reqs, .error e) => (reqs, .error e)
      | (reqs, .ok d) =>
        match latencyLoop a opts rest with
        | (reqs2, .ok results) =>
            (reqs ++ reqs2, .ok ({ metadata := meta, data := d } :: results))
        | (reqs2, .error e) => (reqs ++ reqs2, .error e)

/-- `PerfSONARClient.getLatency`: query `histogram-owdelay` metadata; if
zero series come back, re-query `histogram-rtt`; then run the per-series
loop over whichever list resulted. -/
def getLatency (a : Archive) (source destination : String)
    (opts : CompositeOptions) : Trace × Except String (List MeasurementResult) :=
  match queryMeasurements a (owdelayQuery source destination) with
  | (reqs, .error e) => (reqs, .error e)
  | (reqs, .ok metadata) =>
    if metadata.length = 0 then
      match queryMeasurements a (rttQuery source destination) with
      | (reqs2, .error e) => (reqs ++ reqs2, .error e)
      | (reqs2, .ok metadata2) =>
        let r := latencyLoop a opts metadata2
        (reqs ++ reqs2 ++ r.1, r.2)
    else
      let r := latencyLoop a opts metadata
      (reqs ++ r.1, r.2)

/-- Insertion into a JS `Set<string>` viewed as an insertion-ordered
duplicate-free list: `add` is a no-op on an element already present. -/
def insertUnique (acc : List String) (s : String) : List String :=
  if s ∈ acc then acc else acc ++ [s]

/-- The inner loop of `getAvailableEventTypes`: add every event-type name
of one series to the set. -/
def addEventTypes (acc : List String) (meta : MeasurementMetadata) : List String :=
  meta.eventTypes.foldl (fun acc e => insertUnique acc e.eventType) acc

/-- `Array.from(eventTypes)` after both loops of `getAvailableEventTypes`:
the union of all event-type names over all series, duplicates collapsed,
in first-appearance order. -/
def collectEventTypes (metas : List MeasurementMetadata) : List String :=
  metas.foldl addEventTypes []

/-- `PerfSONARClient.getAvailableEventTypes`: metadata query filtered by the
(optional) source/destination, then the set-based union of event types. -/
def getAvailableEventTypes (a : Archive) (source destination : Option String) :
    Trace × Except String (List String) :=
  match queryMeasurements a { source := source, destination := destination } with
  | (reqs, .error e) => (reqs, .error e)
  | (reqs, .ok metadata) => (reqs, .ok (collectEventTypes metadata))

/-- The URI of the single resource the server lists:
``perfsonar://${PERFSONAR_HOST}/archive`` (from `src/index.ts`). -/
def resourceUri (host : String) : String :=
  "perfsonar://" ++ host ++ "/archive"

/-- The `ListResourcesRequestSchema` handler: exactly one resource, with
URI `resourceUri host`. -/
def listResources (host : String) : List String :=
  [resourceUri host]

/-- The `ReadResourceRequestSchema` handler: the archive resource's URI is
answered by an unfiltered `queryMeasurements({})`; any other URI is
rejected with `Unknown resource: ...`. -/
def readResource (a : Archive) (host uri : String) :
    Trace × Except String (List MeasurementMetadata) :=
  if uri = resourceUri host then
    queryMeasurements a {}
  else
    ([], .error ("Unknown resource: " ++ uri))

/-- The data requests `throughputLoop` issues when every fetch succeeds:
one per series that lists the `throughput` event type, in metadata order. -/
def throughputTraceOk (opts : CompositeOptions) : List MeasurementMetadata → Trace
  | [] => []
  | m :: rest =>
    (if hasEvent "throughput" m then [dataRequest (throughputFetchParams opts m)] else []) ++
    throughputTraceOk opts rest

/-- The data requests `packetLossLoop` issues when every fetch succeeds. -/
def packetLossTraceOk (opts : CompositeOptions) : List MeasurementMetadata → Trace
  | [] => []
  | m :: rest =>
    (if hasEvent "packet-loss-rate" m then [dataRequest (packetLossFetchParams opts m)] else []) ++
    packetLossTraceOk opts rest

/-- The data requests `latencyLoop` issues when every fetch succeeds: one
per series for which `latencySelect` settles on an event type. -/
def latencyTraceOk (opts : CompositeOptions) : List MeasurementMetadata → Trace
  | [] => []
  | m :: rest =>
    (match latencySelect m with
     | none => []
     | some n => [dataRequest (latencyFetchParams opts m n)]) ++
    latencyTraceOk opts rest

/-- Concrete `getMeasurementData` input with both summary fields supplied
but `summaryWindow = 0` (falsy in JS). -/
def cexDataParams : MeasurementDataParams :=
  { metadataKey := "k", eventType := "throughput",
    summaryType := some "averages", summaryWindow := some 0 }

/-- An archive answering every request with an empty success; used to
evaluate the handlers at concrete inputs. -/
def emptyArchive : Archive :=
  { list := fun _ => .ok [], data := fun _ _ => .ok [] }

/-- A concrete `throughput` event-type descriptor. -/
def etThroughput : EventType := { eventType := "throughput", baseUri := "/b" }

/-- A concrete `histogram-rtt` event-type descriptor. -/
def etRtt : EventType := { eventType := "histogram-rtt", baseUri := "/r" }

/-- A concrete series listing only the `throughput` event type. -/
def metaThroughput : MeasurementMetadata :=
  { url := "u", metadataKey := "abc123", source := "h1", destination := "h2",
    measurementAgent := "h1", inputSource := "h1", inputDestination := "h2",
    toolName := "bwctl/iperf3", subjectType := "point-to-point",
    eventTypes := [etThroughput] }

/-- A concrete series listing only the `histogram-rtt` event type. -/
def metaRtt : MeasurementMetadata :=
  { url := "u2", metadataKey := "def456", source := "h1", destination := "h2",
    measurementAgent := "h1", inputSource := "h1", inputDestination := "h2",
    toolName := "powstream", subjectType := "point-to-point",
    eventTypes := [etRtt] }

/-- A concrete data point. -/
def ptW : TimeSeriesDataPoint := { ts := 1000, val := 500000000 }

/-- An archive whose metadata query finds `metaThroughput` and whose data
fetches all return `[ptW]`. -/
def archiveThroughput : Archive :=
  { list := fun _ => .ok [metaThroughput], data := fun _ _ => .ok [ptW] }

/-- An archive whose metadata query finds `metaRtt` and whose data fetches
all return `[ptW]`. -/
def archiveRtt : Archive :=
  { list := fun _ => .ok [metaRtt], data := fun _ _ => .ok [ptW] }

/-- A concrete series listing both the `throughput` and `histogram-rtt`
event types (shares `throughput` with `metaThroughput`). -/
def metaBoth : MeasurementMetadata :=
  { url := "u3", metadataKey := "ghi789", source := "h1", destination := "h2",
    measurementAgent := "h1", inputSource := "h1", inputDestination := "h2",
    toolName := "bwctl/iperf3", subjectType := "point-to-point",
    eventTypes := [etThroughput, etRtt] }

/-- An archive whose metadata query finds `metaThroughput` and `metaBoth`
(so the event type `throughput` occurs in two series). -/
def archiveTwoSeries : Archive :=
  { list := fun _ => .ok [metaThroughput, metaBoth], data := fun _ _ => .ok [ptW] }

/-- A concrete axios error carrying an archive error body. -/
def axiosErr500 : AxiosError :=
  { message := "Request failed with status code 500", responseData := some "detail" }

/-- An archive failing every request with `axiosErr500`. -/
def archiveFail : Archive :=
  { list := fun _ => .error axiosErr500, data := fun _ _ => .error axiosErr500 }

/-- An archive whose metadata query succeeds (finding `metaThroughput` and
`metaRtt`) but whose data fetches all fail with `axiosErr500`. -/
def archiveDataFail : Archive :=
  { list := fun _ => .ok [metaThroughput], data := fun _ _ => .error axiosErr500 }

end PerfSONAR

namespace PerfSONAR

/-! ## Helper lemmas -/

theorem mem_optEntry {k v name : String} {o : Option String} :
    (k, v) ∈ optEntry name o ↔ k = name ∧ o = some v := by
  cases o
  · simp [optEntry]
  · simp [optEntry, Prod.ext_iff, eq_comm]

theorem mem_insertUnique {acc : List String} {s x : String} :
    x ∈ insertUnique acc s ↔ x ∈ acc ∨ x = s := by
  by_cases h : s ∈ acc
  · simp only [insertUnique, if_pos h]
    exact ⟨Or.inl, fun hx => hx.elim id (fun he => he ▸ h)⟩
  · simp [insertUnique, if_neg h]

theorem nodup_insertUnique {acc : List String} {s : String} (h : acc.Nodup) :
    (insertUnique acc s).Nodup := by
  by_cases hs : s ∈ acc
  · simpa [insertUnique, if_pos hs] using h
  · simp [insertUnique, if_neg hs, List.nodup_append, h, hs]

theorem mem_foldl_insertUnique (l : List EventType) (acc : List String) (x : String) :
    x ∈ l.foldl (fun acc e => insertUnique acc e.eventType) acc ↔
      x ∈ acc ∨ ∃ e ∈ l, e.eventType = x := by
  induction l generalizing acc with
  | nil => simp
  | cons e l ih =>
    simp only [List.foldl_cons, ih, mem_insertUnique, List.mem_cons]
    constructor
    · rintro (⟨hx | hx⟩ | ⟨e', he', hx⟩)
      · exact Or.inl hx
      · exact Or.inr ⟨e, Or.inl rfl, hx.symm⟩
      · exact Or.inr ⟨e', Or.inr he', hx⟩
    · rintro (hx | ⟨e', (rfl | he'), hx⟩)
      · exact Or.inl (Or.inl hx)
      · exact Or.inl (Or.inr hx.symm)
      · exact Or.inr ⟨e', he', hx⟩

theorem nodup_foldl_insertUnique (l : List EventType) (acc : List String)
    (h : acc.Nodup) :
    (l.foldl (fun acc e => insertUnique acc e.eventType) acc).Nodup := by
  induction l generalizing acc with
  | nil => simpa
  | cons e l ih => exact ih _ (nodup_insertUnique h)

theorem mem_collect_aux (metas : List MeasurementMetadata) (acc : List String)
    (x : String) :
    x ∈ metas.foldl addEventTypes acc ↔
      x ∈ acc ∨ ∃ m ∈ metas, ∃ e ∈ m.eventTypes, e.eventType = x := by
  induction metas generalizing acc with
  | nil => simp
  | cons m metas ih =>
    simp only [List.foldl_cons, ih, addEventTypes, mem_foldl_insertUnique, List.mem_cons]
    constructor
    · rintro (⟨hx | ⟨e, he, hx⟩⟩ | ⟨m', hm', he⟩)
      · exact Or.inl hx
      · exact Or.inr ⟨m, Or.inl rfl, e, he, hx⟩
      · exact Or.inr ⟨m', Or.inr hm', he⟩
    · rintro (hx | ⟨m', (rfl | hm'), he⟩)
      · exact Or.inl (Or.inl hx)
      · exact Or.inl (Or.inr he)
      · exact Or.inr ⟨m', hm', he⟩

theorem mem_collectEventTypes (metas : List MeasurementMetadata) (x : String) :
    x ∈ collectEventTypes metas ↔ ∃ m ∈ metas, ∃ e ∈ m.eventTypes, e.eventType = x := by
  simpa [collectEventTypes] using mem_collect_aux metas [] x

theorem nodup_collectEventTypes (metas : List MeasurementMetadata) :
    (collectEventTypes metas).Nodup := by
  have : ∀ acc : List String, acc.Nodup → (metas.foldl addEventTypes acc).Nodup := by
    induction metas with
    | nil => exact fun acc h => h
    | cons m metas ih =>
      exact fun acc h => ih _ (nodup_foldl_insertUnique _ _ h)
  exact this [] List.nodup_nil

theorem find_none_of_hasEvent_false {name : String} {m : MeasurementMetadata}
    (h : hasEvent name m = false) :
    m.eventTypes.find? (fun e => e.eventType == name) = none := by
  cases hf : m.eventTypes.find? (fun e => e.eventType == name) with
  | none => rfl
  | some et => rw [hasEvent, hf] at h; simp at h

theorem exists_find_of_hasEvent {name : String} {m : MeasurementMetadata}
    (h : hasEvent name m = true) :
    ∃ et, m.eventTypes.find? (fun e => e.eventType == name) = some et := by
  cases hf : m.eventTypes.find? (fun e => e.eventType == name) with
  | none => rw [hasEvent, hf] at h; simp at h
  | some et => exact ⟨et, rfl⟩

theorem throughputLoop_ok (a : Archive) (opts : CompositeOptions)
    (dataOf : MeasurementMetadata → List TimeSeriesDataPoint)
    (metas : List MeasurementMetadata)
    (h : ∀ m ∈ metas, hasEvent "throughput" m = true →
      a.data (dataPath (throughputFetchParams opts m))
        (dataQueryParams (throughputFetchParams opts m)) = .ok (dataOf m)) :
    throughputLoop a opts metas =
      (throughputTraceOk opts metas,
       .ok ((metas.filter (fun m => hasEvent "throughput" m)).map
         (fun m => { metadata := m, data := dataOf m }))) := by
  induction metas with
  | nil => rfl
  | cons m rest ih =>
    have hrest := fun m' hm' => h m' (List.mem_cons_of_mem _ hm')
    cases hev : hasEvent "throughput" m with
    | false =>
      have hf := find_none_of_hasEvent_false hev
      simp [throughputLoop, hf, ih hrest, throughputTraceOk, hev, List.filter_cons]
    | true =>
      obtain ⟨et, hf⟩ := exists_find_of_hasEvent hev
      have hd := h m (List.mem_cons_self _ _) hev
      simp [throughputLoop, hf, getMeasurementData, hd, ih hrest,
        throughputTraceOk, hev, List.filter_cons, dataRequest]

theorem throughputLoop_fetch_error (a : Archive) (opts : CompositeOptions)
    (e : AxiosError) (pre post : List MeasurementMetadata) (m : MeasurementMetadata)
    (hpre : ∀ m' ∈ pre, hasEvent "throughput" m' = true →
      ∃ d, a.data (dataPath (throughputFetchParams opts m'))
        (dataQueryParams (throughputFetchParams opts m')) = .ok d)
    (hm : hasEvent "throughput" m = true)
    (hfail : a.data (dataPath (throughputFetchParams opts m))
      (dataQueryParams (throughputFetchParams opts m)) = .error e) :
    throughputLoop a opts (pre ++ m :: post) =
      (throughputTraceOk opts pre ++ [dataRequest (throughputFetchParams opts m)],
       .error (wrapError "Failed to get measurement data" e)) := by
  induction pre with
  | nil =>
    obtain ⟨et, hf⟩ := exists_find_of_hasEvent hm
    simp [throughputLoop, hf, getMeasurementData, hfail, throughputTraceOk, dataRequest]
  | cons m' pre ih =>
    have ih' := ih fun x hx => hpre x (List.mem_cons_of_mem _ hx)
    cases hev : hasEvent "throughput" m' with
    | false =>
      have hf := find_none_of_hasEvent_false hev
      simp [List.cons_append, throughputLoop, hf, ih', throughputTraceOk, hev]
    | true =>
      obtain ⟨et, hf⟩ := exists_find_of_hasEvent hev
      obtain ⟨d, hd⟩ := hpre m' (List.mem_cons_self _ _) hev
      simp [List.cons_append, throughputLoop, hf, getMeasurementData, hd, ih',
        throughputTraceOk, hev, dataRequest]

theorem packetLossLoop_ok (a : Archive) (opts : CompositeOptions)
    (dataOf : MeasurementMetadata → List TimeSeriesDataPoint)
    (metas : List MeasurementMetadata)
    (h : ∀ m ∈ metas, hasEvent "packet-loss-rate" m = true →
      a.data (dataPath (packetLossFetchParams opts m))
        (dataQueryParams (packetLossFetchParams opts m)) = .ok (dataOf m)) :
    packetLossLoop a opts metas =
      (packetLossTraceOk opts metas,
       .ok ((metas.filter (fun m => hasEvent "packet-loss-rate" m)).map
         (fun m => { metadata := m, data := dataOf m }))) := by
  induction metas with
  | nil => rfl
  | cons m rest ih =>
    have hrest := fun m' hm' => h m' (List.mem_cons_of_mem _ hm')
    cases hev : hasEvent "packet-loss-rate" m with
    | false =>
      have hf := find_none_of_hasEvent_false hev
      simp [packetLossLoop, hf, ih hrest, packetLossTraceOk, hev, List.filter_cons]
    | true =>
      obtain ⟨et, hf⟩ := exists_find_of_hasEvent hev
      have hd := h m (List.mem_cons_self _ _) hev
      simp [packetLossLoop, hf, getMeasurementData, hd, ih hrest,
        packetLossTraceOk, hev, List.filter_cons, dataRequest]

theorem packetLossLoop_fetch_error (a : Archive) (opts : CompositeOptions)
    (e : AxiosError) (pre post : List MeasurementMetadata) (m : MeasurementMetadata)
    (hpre : ∀ m' ∈ pre, hasEvent "packet-loss-rate" m' = true →
      ∃ d, a.data (dataPath (packetLossFetchParams opts m'))
        (dataQueryParams (packetLossFetchParams opts m')) = .ok d)
    (hm : hasEvent "packet-loss-rate" m = true)
    (hfail : a.data (dataPath (packetLossFetchParams opts m))
      (dataQueryParams (packetLossFetchParams opts m)) = .error e) :
    packetLossLoop a opts (pre ++ m :: post) =
      (packetLossTraceOk opts pre ++ [dataRequest (packetLossFetchParams opts m)],
       .error (wrapError "Failed to get measurement data" e)) := by
  induction pre with
  | nil =>
    obtain ⟨et, hf⟩ := exists_find_of_hasEvent hm
    simp [packetLossLoop, hf, getMeasurementData, hfail, packetLossTraceOk, dataRequest]
  | cons m' pre ih =>
    have ih' := ih fun x hx => hpre x (List.mem_cons_of_mem _ hx)
    cases hev : hasEvent "packet-loss-rate" m' with
    | false =>
      have hf := find_none_of_hasEvent_false hev
      simp [List.cons_append, packetLossLoop, hf, ih', packetLossTraceOk, hev]
    | true =>
      obtain ⟨et, hf⟩ := exists_find_of_hasEvent hev
      obtain ⟨d, hd⟩ := hpre m' (List.mem_cons_self _ _) hev
      simp [List.cons_append, packetLossLoop, hf, getMeasurementData, hd, ih',
        packetLossTraceOk, hev, dataRequest]

theorem latencyLoop_ok (a : Archive) (opts : CompositeOptions)
    (dataOf : MeasurementMetadata → List TimeSeriesDataPoint)
    (metas : List MeasurementMetadata)
    (h : ∀ m ∈ metas, ∀ n, latencySelect m = some n →
      a.data (dataPath (latencyFetchParams opts m n))
        (dataQueryParams (latencyFetchParams opts m n)) = .ok (dataOf m)) :
    latencyLoop a opts metas =
      (latencyTraceOk opts metas,
       .ok ((metas.filter (fun m => (latencySelect m).isSome)).map
         (fun m => { metadata := m, data := dataOf m }))) := by
  induction metas with
  | nil => rfl
  | cons m rest ih =>
    have hrest := fun m' hm' => h m' (List.mem_cons_of_mem _ hm')
    cases hsel : latencySelect m with
    | none =>
      simp [latencyLoop, hsel, ih hrest, latencyTraceOk, List.filter_cons]
    | some n =>
      have hd := h m (List.mem_cons_self _ _) n hsel
      simp [latencyLoop, hsel, getMeasurementData, hd, ih hrest,
        latencyTraceOk, List.filter_cons, dataRequest]

theorem latencyLoop_fetch_error (a : Archive) (opts : CompositeOptions)
    (e : AxiosError) (pre post : List MeasurementMetadata) (m : MeasurementMetadata)
    (n : String)
    (hpre : ∀ m' ∈ pre, ∀ n', latencySelect m' = some n' →
      ∃ d, a.data (dataPath (latencyFetchParams opts m' n'))
        (dataQueryParams (latencyFetchParams opts m' n')) = .ok d)
    (hm : latencySelect m = some n)
    (hfail : a.data (dataPath (latencyFetchParams opts m n))
      (dataQueryParams (latencyFetchParams opts m n)) = .error e) :
    latencyLoop a opts (pre ++ m :: post) =
      (latencyTraceOk opts pre ++ [dataRequest (latencyFetchParams opts m n)],
       .error (wrapError "Failed to get measurement data" e)) := by
  induction pre with
  | nil =>
    simp [latencyLoop, hm, getMeasurementData, hfail, latencyTraceOk, dataRequest]
  | cons m' pre ih =>
    have ih' := ih fun x hx => hpre x (List.mem_cons_of_mem _ hx)
    cases hsel : latencySelect m' with
    | none =>
      simp [List.cons_append, latencyLoop, hsel, ih', latencyTraceOk]
    | some n' =>
      obtain ⟨d, hd⟩ := hpre m' (List.mem_cons_self _ _) n' hsel
      simp [List.cons_append, latencyLoop, hsel, getMeasurementData, hd, ih',
        latencyTraceOk, dataRequest]

theorem latencyLoop_trace_data (a : Archive) (opts : CompositeOptions)
    (metas : List MeasurementMetadata) :
    ∀ q ∈ (latencyLoop a opts metas).1, q.isList = false := by
  induction metas with
  | nil => simp [latencyLoop]
  | cons m rest ih =>
    intro q hq
    rw [latencyLoop] at hq
    cases hsel : latencySelect m with
    | none =>
      rw [hsel] at hq
      exact ih q hq
    | some n =>
      rw [hsel] at hq
      cases hfetch : a.data (dataPath (latencyFetchParams opts m n))
          (dataQueryParams (latencyFetchParams opts m n)) with
      | error e =>
        simp [getMeasurementData, hfetch] at hq
        simp [hq, dataRequest, Request.isList]
      | ok d =>
        cases hrest : latencyLoop a opts rest with
        | mk t2 r2 =>
          cases r2 with
          | ok results =>
            simp [getMeasurementData, hfetch, hrest] at hq
            rcases hq with hq | hq
            · simp [hq, dataRequest, Request.isList]
            · exact ih q (by rw [hrest]; exact hq)
          | error e2 =>
            simp [getMeasurementData, hfetch, hrest] at hq
            rcases hq with hq | hq
            · simp [hq, dataRequest, Request.isList]
            · exact ih q (by rw [hrest]; exact hq)

/-! ## Claims -/

/-- C1 (counterexample): with `summaryType = "averages"` and
`summaryWindow = 0` — both supplied — the path built by
`getMeasurementData` is `/k/throughput/base`, which does not end in
`/{summaryType}/{summaryWindow}` (`/averages/0`), refuting the claim that
supplying both always yields the summary-suffixed path. -/
theorem C1_counterexample :
    cexDataParams.summaryType.isSome = true ∧
    cexDataParams.summaryWindow.isSome = true ∧
    dataPath cexDataParams = "/k/throughput/base" ∧
    ¬ ("/averages/0".data <:+ (dataPath cexDataParams).data) := by
  refine ⟨rfl, rfl, by decide, by decide⟩

/-- C1 (amended): for every call to `getMeasurementData`, the one request
issued has path `dataPath p`; that path begins with
`/{metadataKey}/{eventType}`; it ends in `/{summaryType}/{summaryWindow}`
when both are supplied with JS-truthy values (non-empty `summaryType`,
non-zero `summaryWindow`), and ends in `/base` otherwise (in particular
when `summaryWindow` is supplied but `summaryType` is not). -/
theorem C1_amended_path (a : Archive) (p : MeasurementDataParams) :
    (getMeasurementData a p).1 = [Request.data (dataPath p) (dataQueryParams p)] ∧
    (("/" ++ p.metadataKey ++ "/" ++ p.eventType).data <+: (dataPath p).data) ∧
    (∀ st w, p.summaryType = some st → st ≠ "" → p.summaryWindow = some w → w ≠ 0 →
      dataPath p =
        "/" ++ p.metadataKey ++ "/" ++ p.eventType ++ "/" ++ st ++ "/" ++ toString w) ∧
    ((jsTruthyStr p.summaryType && jsTruthyNat p.summaryWindow) = false →
      dataPath p = "/" ++ p.metadataKey ++ "/" ++ p.eventType ++ "/base") := by
  refine ⟨rfl, ?_, ?_, ?_⟩
  · by_cases h : (jsTruthyStr p.summaryType && jsTruthyNat p.summaryWindow) = true
    · simp [dataPath, h]
    · simp only [Bool.not_eq_true] at h
      simp [dataPath, h]
  · intro st w h1 h2 h3 h4
    simp [dataPath, jsTruthyStr, jsTruthyNat, h1, h2, h3, h4]
  · intro h
    simp [dataPath, h]

/-- C1 (witness): at `metadataKey = "k"`, `eventType = "throughput"`,
`summaryType = "averages"`, `summaryWindow = 3600`, the path is
`/k/throughput/averages/3600`. -/
theorem C1_amended_path_witness :
    dataPath { metadataKey := "k", eventType := "throughput",
               summaryType := some "averages", summaryWindow := some 3600 } =
      "/k/throughput/averages/3600" := by
  have h := (C1_amended_path emptyArchive
    { metadataKey := "k", eventType := "throughput",
      summaryType := some "averages", summaryWindow := some 3600 }).2.2.1
  simpa using h "averages" 3600 rfl (by decide) rfl (by decide)

/-- C10: the summary branch of `getMeasurementData` is taken only when both
summary values are JS-truthy: `summaryWindow = 0` (or `summaryType = ""`)
yields the `/base` path even though the field is supplied; and the three
composite methods called with `summaryWindow = 0` set no `summaryType` and
build the `/base` path for every series. -/
theorem C10_truthy_summary (p : MeasurementDataParams) (opts : CompositeOptions)
    (m : MeasurementMetadata) (n : String) :
    (p.summaryWindow = some 0 →
      dataPath p = "/" ++ p.metadataKey ++ "/" ++ p.eventType ++ "/base") ∧
    (p.summaryType = some "" →
      dataPath p = "/" ++ p.metadataKey ++ "/" ++ p.eventType ++ "/base") ∧
    (opts.summaryWindow = some 0 →
      (throughputFetchParams opts m).summaryType = none ∧
      dataPath (throughputFetchParams opts m) =
        "/" ++ m.metadataKey ++ "/" ++ "throughput" ++ "/base" ∧
      (latencyFetchParams opts m n).summaryType = none ∧
      dataPath (latencyFetchParams opts m n) = "/" ++ m.metadataKey ++ "/" ++ n ++ "/base" ∧
      (packetLossFetchParams opts m).summaryType = none ∧
      dataPath (packetLossFetchParams opts m) =
        "/" ++ m.metadataKey ++ "/" ++ "packet-loss-rate" ++ "/base") := by
  refine ⟨?_, ?_, ?_⟩
  · intro h; simp [dataPath, jsTruthyNat, h]
  · intro h; simp [dataPath, jsTruthyStr, h]
  · intro h
    refine ⟨?_, ?_, ?_, ?_, ?_, ?_⟩ <;>
      simp [throughputFetchParams, latencyFetchParams, packetLossFetchParams,
        dataPath, jsTruthyNat, h]

/-- C10 (witness): with `summaryWindow = 0` supplied alongside
`summaryType = "averages"`, the path ends in `/base`; and
`throughputFetchParams` with `summaryWindow = 0` sets no summary type. -/
theorem C10_truthy_summary_witness :
    dataPath cexDataParams = "/k/throughput/base" ∧
    (throughputFetchParams { summaryWindow := some 0 } metaThroughput).summaryType = none := by
  have h := C10_truthy_summary cexDataParams { summaryWindow := some 0 } metaThroughput "x"
  exact ⟨h.1 rfl, (h.2.2 rfl).1⟩

/-- C8: on an archive failure (transport error or non-success status,
surfaced as an axios error `e`), `queryMeasurements` and
`getMeasurementData` return no value: they fail with a message embedding
`e`'s own message and, when the archive returned an error body, that body
serialized (suffix `" - " ++ body`). -/
theorem C8_error_wrapping (a : Archive) (q : MeasurementQueryParams)
    (p : MeasurementDataParams) (e : AxiosError) :
    (a.list (sentParams q) = .error e →
      queryMeasurements a q =
        ([Request.list (sentParams q)],
         .error ("Failed to query measurements: " ++ e.message ++ axiosSuffix e))) ∧
    (a.data (dataPath p) (dataQueryParams p) = .error e →
      getMeasurementData a p =
        ([dataRequest p],
         .error ("Failed to get measurement data: " ++ e.message ++ axiosSuffix e))) ∧
    (∀ b, e.responseData = some b → axiosSuffix e = " - " ++ b) ∧
    (e.responseData = none → axiosSuffix e = "") := by
  refine ⟨?_, ?_, ?_, ?_⟩
  · intro h; simp [queryMeasurements, wrapError, h]
  · intro h; simp [getMeasurementData, wrapError, h]
  · intro b h; simp [axiosSuffix, h]
  · intro h; simp [axiosSuffix, h]

/-- C8 (witness): the failing archive `archiveFail` makes both primitives
fail with the wrapped message carrying the serialized body `"detail"`. -/
theorem C8_error_wrapping_witness :
    queryMeasurements archiveFail {} =
      ([Request.list (sentParams {})],
       .error "Failed to query measurements: Request failed with status code 500 - detail") ∧
    getMeasurementData archiveFail cexDataParams =
      ([dataRequest cexDataParams],
       .error "Failed to get measurement data: Request failed with status code 500 - detail") := by
  have h := C8_error_wrapping archiveFail {} cexDataParams axiosErr500
  exact ⟨h.1 rfl, h.2.1 rfl⟩

/-- C9 (counterexample): the single resource's URI uses the scheme
`perfsonar://`, not `archive://`: for host `example.net` the listed URI is
`perfsonar://example.net/archive`, and reading
`archive://example.net/archive` is rejected as an unknown resource. -/
theorem C9_counterexample :
    listResources "example.net" = ["perfsonar://example.net/archive"] ∧
    resourceUri "example.net" ≠ "archive://example.net/archive" ∧
    (readResource emptyArchive "example.net" "archive://example.net/archive").2 =
      .error "Unknown resource: archive://example.net/archive" := by
  refine ⟨rfl, by decide, ?_⟩
  have h : ("archive://example.net/archive" = resourceUri "example.net") = False := by
    simp [resourceUri]
  simp [readResource, h]

/-- C9 (amended): the server exposes exactly one read-only resource, whose
URI is `perfsonar://{host}/archive`; reading that URI returns the result
of an unfiltered `queryMeasurements` call, and reading any other URI is
rejected with `Unknown resource`. -/
theorem C9_single_resource (a : Archive) (host uri : String) :
    listResources host = [resourceUri host] ∧
    resourceUri host = "perfsonar://" ++ host ++ "/archive" ∧
    readResource a host (resourceUri host) = queryMeasurements a {} ∧
    (uri ≠ resourceUri host →
      readResource a host uri = ([], .error ("Unknown resource: " ++ uri))) := by
  refine ⟨rfl, rfl, by simp [readResource], fun h => by simp [readResource, h]⟩

/-- C6: the query parameters `queryMeasurements` sends are exactly the
filter keys supplied with a value (under their wire names), carrying the
supplied values; keys not supplied are absent from the request, and every
sent parameter is one of the nine recognized filter keys. -/
theorem C6_params_exactly_supplied (p : MeasurementQueryParams) (v : String) :
    ((("source", v) ∈ sentParams p) ↔ p.source = some v) ∧
    ((("destination", v) ∈ sentParams p) ↔ p.destination = some v) ∧
    ((("event-type", v) ∈ sentParams p) ↔ p.eventType = some v) ∧
    ((("tool-name", v) ∈ sentParams p) ↔ p.toolName = some v) ∧
    ((("measurement-agent", v) ∈ sentParams p) ↔ p.measurementAgent = some v) ∧
    ((("time-start", v) ∈ sentParams p) ↔ p.timeStart.map toString = some v) ∧
    ((("time-end", v) ∈ sentParams p) ↔ p.timeEnd.map toString = some v) ∧
    ((("time-range", v) ∈ sentParams p) ↔ p.timeRange.map toString = some v) ∧
    ((("limit", v) ∈ sentParams p) ↔ p.limit.map toString = some v) ∧
    (∀ kv ∈ sentParams p,
      kv.1 ∈ (["source", "destination", "event-type", "tool-name", "measurement-agent",
        "time-start", "time-end", "time-range", "limit"] : List String)) := by
  refine ⟨?_, ?_, ?_, ?_, ?_, ?_, ?_, ?_, ?_, ?_⟩
  · simp [sentParams, mem_optEntry]
  · simp [sentParams, mem_optEntry]
  · simp [sentParams, mem_optEntry]
  · simp [sentParams, mem_optEntry]
  · simp [sentParams, mem_optEntry]
  · simp [sentParams, mem_optEntry]
  · simp [sentParams, mem_optEntry]
  · simp [sentParams, mem_optEntry]
  · simp [sentParams, mem_optEntry]
  · rintro ⟨k, w⟩ hkv
    simp only [sentParams, List.mem_append, mem_optEntry] at hkv
    rcases hkv with ((((((((h | h) | h) | h) | h) | h) | h) | h) | h) <;> simp [h.1]

/-- C6 (witness): with only `source` and `time-range` supplied, exactly
those two parameters are sent. -/
theorem C6_params_witness :
    ("source", "h1") ∈ sentParams { source := some "h1", timeRange := some 86400 } ∧
    ("destination", "h2") ∉ sentParams { source := some "h1", timeRange := some 86400 } ∧
    ("time-range", "86400") ∈ sentParams { source := some "h1", timeRange := some 86400 } := by
  have h1 := C6_params_exactly_supplied { source := some "h1", timeRange := some 86400 } "h1"
  have h2 := C6_params_exactly_supplied { source := some "h1", timeRange := some 86400 } "h2"
  have h3 := C6_params_exactly_supplied { source := some "h1", timeRange := some 86400 } "86400"
  refine ⟨h1.1.mpr rfl, fun hm => ?_, h3.2.2.2.2.2.2.2.1.mpr (by decide)⟩
  simpa using h2.2.1.mp hm

/-- C5: `getAvailableEventTypes` returns the duplicate-free union of the
event-type names over all series of the metadata reply: every name that
occurs in some series occurs exactly once (the output is duplicate-free),
and nothing else occurs. -/
theorem C5_event_type_union (a : Archive) (s d : Option String)
    (metas : List MeasurementMetadata)
    (h : a.list (sentParams { source := s, destination := d }) = .ok metas) :
    getAvailableEventTypes a s d =
      ([Request.list (sentParams { source := s, destination := d })],
       .ok (collectEventTypes metas)) ∧
    (collectEventTypes metas).Nodup ∧
    (∀ x, x ∈ collectEventTypes metas ↔
      ∃ m ∈ metas, ∃ e ∈ m.eventTypes, e.eventType = x) := by
  refine ⟨?_, nodup_collectEventTypes metas, fun x => mem_collectEventTypes metas x⟩
  simp [getAvailableEventTypes, queryMeasurements, h]

/-- C5 (witness): two series sharing `throughput` yield the output
`["throughput", "histogram-rtt"]` — `throughput` appears exactly once. -/
theorem C5_event_type_union_witness :
    getAvailableEventTypes archiveTwoSeries (some "h1") (some "h2") =
      ([Request.list (sentParams { source := some "h1", destination := some "h2" })],
       .ok (collectEventTypes [metaThroughput, metaBoth])) ∧
    (collectEventTypes [metaThroughput, metaBoth]).Nodup ∧
    (∀ x, x ∈ collectEventTypes [metaThroughput, metaBoth] ↔
      ∃ m ∈ [metaThroughput, metaBoth], ∃ e ∈ m.eventTypes, e.eventType = x) :=
  C5_event_type_union archiveTwoSeries (some "h1") (some "h2")
    [metaThroughput, metaBoth] rfl

/-- C2: `getLatency` issues the fallback `histogram-rtt` metadata query
exactly when the `histogram-owdelay` metadata query returned an empty
series list; when the first query returns at least one series no second
metadata query appears in the trace (whatever those series' event-type
lists contain), and when the first query fails no fallback is attempted. -/
theorem C2_latency_fallback (a : Archive) (s d : String) (opts : CompositeOptions) :
    (a.list (sentParams (owdelayQuery s d)) = .ok [] →
      ∃ t res, getLatency a s d opts =
        (Request.list (sentParams (owdelayQuery s d)) ::
         Request.list (sentParams (rttQuery s d)) :: t, res)) ∧
    (∀ m ms, a.list (sentParams (owdelayQuery s d)) = .ok (m :: ms) →
      ∃ t res, getLatency a s d opts =
        (Request.list (sentParams (owdelayQuery s d)) :: t, res) ∧
        ∀ q ∈ t, q.isList = false) ∧
    (∀ e, a.list (sentParams (owdelayQuery s d)) = .error e →
      getLatency a s d opts = ([Request.list (sentParams (owdelayQuery s d))],
        .error (wrapError "Failed to query measurements" e))) := by
  refine ⟨?_, ?_, ?_⟩
  · intro h
    cases hr : a.list (sentParams (rttQuery s d)) with
    | error e =>
      exact ⟨[], .error (wrapError "Failed to query measurements" e),
        by simp [getLatency, queryMeasurements, h, hr]⟩
    | ok metas2 =>
      exact ⟨(latencyLoop a opts metas2).1, (latencyLoop a opts metas2).2,
        by simp [getLatency, queryMeasurements, h, hr]⟩
  · intro m ms h
    exact ⟨(latencyLoop a opts (m :: ms)).1, (latencyLoop a opts (m :: ms)).2,
      by simp [getLatency, queryMeasurements, h],
      latencyLoop_trace_data a opts (m :: ms)⟩
  · intro e h
    simp [getLatency, queryMeasurements, h]

/-- C2 (witness): against `archiveRtt` (whose metadata query always finds
one series) the owdelay query already returns one series, so the trace of
`getLatency` starts with the single list request and contains no further
list request. -/
theorem C2_latency_fallback_witness :
    ∃ t res, getLatency archiveRtt "h1" "h2" {} =
      (Request.list (sentParams (owdelayQuery "h1" "h2")) :: t, res) ∧
      ∀ q ∈ t, q.isList = false :=
  (C2_latency_fallback archiveRtt "h1" "h2" {}).2.1 metaRtt [] rfl

/-- C3: for each series, `getLatency` settles on the first event type of
the fixed order `["histogram-owdelay", "histogram-rtt"]` present in the
series' descriptor list, fetches exactly that event type (one data
request), emits exactly one `MeasurementResult` for the series, and a
series listing neither event type is skipped: no request and no result. -/
theorem C3_latency_event_selection (a : Archive) (opts : CompositeOptions)
    (meta : MeasurementMetadata) (rest : List MeasurementMetadata) :
    (hasEvent "histogram-owdelay" meta = true →
      latencySelect meta = some "histogram-owdelay") ∧
    (hasEvent "histogram-owdelay" meta = false → hasEvent "histogram-rtt" meta = true →
      latencySelect meta = some "histogram-rtt") ∧
    (hasEvent "histogram-owdelay" meta = false → hasEvent "histogram-rtt" meta = false →
      latencySelect meta = none ∧
      latencyLoop a opts (meta :: rest) = latencyLoop a opts rest) ∧
    (∀ n dd, latencySelect meta = some n →
      a.data (dataPath (latencyFetchParams opts meta n))
        (dataQueryParams (latencyFetchParams opts meta n)) = .ok dd →
      latencyLoop a opts (meta :: rest) =
        (dataRequest (latencyFetchParams opts meta n) :: (latencyLoop a opts rest).1,
         match (latencyLoop a opts rest).2 with
         | .ok results => .ok ({ metadata := meta, data := dd } :: results)
         | .error e2 => .error e2)) := by
  refine ⟨?_, ?_, ?_, ?_⟩
  · intro h
    rw [hasEvent] at h
    simp [latencySelect, latencyEventTypes, List.find?, h]
  · intro h1 h2
    rw [hasEvent] at h1 h2
    simp [latencySelect, latencyEventTypes, List.find?, h1, h2]
  · intro h1 h2
    rw [hasEvent] at h1 h2
    have hsel : latencySelect meta = none := by
      simp [latencySelect, latencyEventTypes, List.find?, h1, h2]
    exact ⟨hsel, by simp [latencyLoop, hsel]⟩
  · intro n dd hsel hd
    cases hrest : latencyLoop a opts rest with
    | mk t2 r2 =>
      cases r2 with
      | ok results =>
        simp [latencyLoop, hsel, getMeasurementData, hd, hrest, dataRequest]
      | error e2 =>
        simp [latencyLoop, hsel, getMeasurementData, hd, hrest, dataRequest]

/-- C3 (witness): `metaRtt` lists only `histogram-rtt`, so the selection
falls through `histogram-owdelay` to `histogram-rtt`, one request is
issued for it and one result emitted. -/
theorem C3_latency_event_selection_witness :
    latencySelect metaRtt = some "histogram-rtt" ∧
    latencyLoop archiveRtt {} [metaRtt] =
      ([dataRequest (latencyFetchParams {} metaRtt "histogram-rtt")],
       .ok [{ metadata := metaRtt, data := [ptW] }]) := by
  have h := C3_latency_event_selection archiveRtt {} metaRtt []
  have hsel := h.2.1 rfl rfl
  refine ⟨hsel, ?_⟩
  have hstep := h.2.2.2 "histogram-rtt" [ptW] hsel rfl
  simpa [latencyLoop] using hstep

/-- C4: when every needed fetch succeeds, `getThroughput` (resp.
`getPacketLoss`) returns exactly one `MeasurementResult` per series whose
descriptor list contains `throughput` (resp. `packet-loss-rate`), in
metadata-query order, and silently skips every other series. -/
theorem C4_target_event_filter (a : Archive) (s d : String) (opts : CompositeOptions)
    (metas : List MeasurementMetadata)
    (dataOf : MeasurementMetadata → List TimeSeriesDataPoint) :
    (a.list (sentParams (throughputQuery s d)) = .ok metas →
     (∀ m ∈ metas, hasEvent "throughput" m = true →
        a.data (dataPath (throughputFetchParams opts m))
          (dataQueryParams (throughputFetchParams opts m)) = .ok (dataOf m)) →
     getThroughput a s d opts =
       (Request.list (sentParams (throughputQuery s d)) :: throughputTraceOk opts metas,
        .ok ((metas.filter (fun m => hasEvent "throughput" m)).map
          (fun m => { metadata := m, data := dataOf m })))) ∧
    (a.list (sentParams (packetLossQuery s d)) = .ok metas →
     (∀ m ∈ metas, hasEvent "packet-loss-rate" m = true →
        a.data (dataPath (packetLossFetchParams opts m))
          (dataQueryParams (packetLossFetchParams opts m)) = .ok (dataOf m)) →
     getPacketLoss a s d opts =
       (Request.list (sentParams (packetLossQuery s d)) :: packetLossTraceOk opts metas,
        .ok ((metas.filter (fun m => hasEvent "packet-loss-rate" m)).map
          (fun m => { metadata := m, data := dataOf m })))) := by
  constructor
  · intro h hd
    simp [getThroughput, queryMeasurements, h,
      throughputLoop_ok a opts dataOf metas hd]
  · intro h hd
    simp [getPacketLoss, queryMeasurements, h,
      packetLossLoop_ok a opts dataOf metas hd]

/-- C4 (witness): two series both listing `throughput` yield two results
for `getThroughput`; neither lists `packet-loss-rate`, so `getPacketLoss`
returns the empty list (skips them without error). -/
theorem C4_target_event_filter_witness :
    getThroughput archiveTwoSeries "h1" "h2" {} =
      (Request.list (sentParams (throughputQuery "h1" "h2")) ::
        throughputTraceOk {} [metaThroughput, metaBoth],
       .ok [{ metadata := metaThroughput, data := [ptW] },
            { metadata := metaBoth, data := [ptW] }]) ∧
    getPacketLoss archiveTwoSeries "h1" "h2" {} =
      (Request.list (sentParams (packetLossQuery "h1" "h2")) ::
        packetLossTraceOk {} [metaThroughput, metaBoth],
       .ok []) := by
  have h := C4_target_event_filter archiveTwoSeries "h1" "h2" {}
    [metaThroughput, metaBoth] (fun _ => [ptW])
  constructor
  · rw [h.1 rfl (fun m hm hev => rfl)]; rfl
  · rw [h.2 rfl (fun m hm hev => rfl)]; rfl

/-- C7: a metadata-query failure aborts each composite call with the
wrapped error before any data fetch; and a failure of one per-series data
fetch aborts the whole composite call: the trace stops at the failing
request (no remaining series is fetched) and the error, not a partial
result list, is returned. -/
theorem C7_error_aborts (a : Archive) (s d : String) (opts : CompositeOptions)
    (e : AxiosError) (pre post : List MeasurementMetadata) (m : MeasurementMetadata)
    (n : String) :
    (a.list (sentParams (throughputQuery s d)) = .error e →
      getThroughput a s d opts = ([Request.list (sentParams (throughputQuery s d))],
        .error (wrapError "Failed to query measurements" e))) ∧
    (a.list (sentParams (packetLossQuery s d)) = .error e →
      getPacketLoss a s d opts = ([Request.list (sentParams (packetLossQuery s d))],
        .error (wrapError "Failed to query measurements" e))) ∧
    (a.list (sentParams (owdelayQuery s d)) = .error e →
      getLatency a s d opts = ([Request.list (sentParams (owdelayQuery s d))],
        .error (wrapError "Failed to query measurements" e))) ∧
    (a.list (sentParams (owdelayQuery s d)) = .ok [] →
      a.list (sentParams (rttQuery s d)) = .error e →
      getLatency a s d opts =
        ([Request.list (sentParams (owdelayQuery s d)),
          Request.list (sentParams (rttQuery s d))],
         .error (wrapError "Failed to query measurements" e))) ∧
    (a.list (sentParams (throughputQuery s d)) = .ok (pre ++ m :: post) →
      (∀ m' ∈ pre, hasEvent "throughput" m' = true →
        ∃ dd, a.data (dataPath (throughputFetchParams opts m'))
          (dataQueryParams (throughputFetchParams opts m')) = .ok dd) →
      hasEvent "throughput" m = true →
      a.data (dataPath (throughputFetchParams opts m))
        (dataQueryParams (throughputFetchParams opts m)) = .error e →
      getThroughput a s d opts =
        (Request.list (sentParams (throughputQuery s d)) ::
          (throughputTraceOk opts pre ++ [dataRequest (throughputFetchParams opts m)]),
         .error (wrapError "Failed to get measurement data" e))) ∧
    (a.list (sentParams (packetLossQuery s d)) = .ok (pre ++ m :: post) →
      (∀ m' ∈ pre, hasEvent "packet-loss-rate" m' = true →
        ∃ dd, a.data (dataPath (packetLossFetchParams opts m'))
          (dataQueryParams (packetLossFetchParams opts m')) = .ok dd) →
      hasEvent "packet-loss-rate" m = true →
      a.data (dataPath (packetLossFetchParams opts m))
        (dataQueryParams (packetLossFetchParams opts m)) = .error e →
      getPacketLoss a s d opts =
        (Request.list (sentParams (packetLossQuery s d)) ::
          (packetLossTraceOk opts pre ++ [dataRequest (packetLossFetchParams opts m)]),
         .error (wrapError "Failed to get measurement data" e))) ∧
    (a.list (sentParams (owdelayQuery s d)) = .ok (pre ++ m :: post) →
      (∀ m' ∈ pre, ∀ n', latencySelect m' = some n' →
        ∃ dd, a.data (dataPath (latencyFetchParams opts m' n'))
          (dataQueryParams (latencyFetchParams opts m' n')) = .ok dd) →
      latencySelect m = some n →
      a.data (dataPath (latencyFetchParams opts m n))
        (dataQueryParams (latencyFetchParams opts m n)) = .error e →
      getLatency a s d opts =
        (Request.list (sentParams (owdelayQuery s d)) ::
          (latencyTraceOk opts pre ++ [dataRequest (latencyFetchParams opts m n)]),
         .error (wrapError "Failed to get measurement data" e))) := by
  refine ⟨?_, ?_, ?_, ?_, ?_, ?_, ?_⟩
  · intro h; simp [getThroughput, queryMeasurements, h]
  · intro h; simp [getPacketLoss, queryMeasurements, h]
  · intro h; simp [getLatency, queryMeasurements, h]
  · intro h1 h2; simp [getLatency, queryMeasurements, h1, h2]
  · intro h hpre hm hfail
    simp [getThroughput, queryMeasurements, h,
      throughputLoop_fetch_error a opts e pre post m hpre hm hfail]
  · intro h hpre hm hfail
    simp [getPacketLoss, queryMeasurements, h,
      packetLossLoop_fetch_error a opts e pre post m hpre hm hfail]
  · intro h hpre hm hfail
    simp [getLatency, queryMeasurements, h,
      latencyLoop_fetch_error a opts e pre post m n hpre hm hfail]

/-- C7 (witness): with `archiveDataFail` (metadata succeeds, every fetch
fails) the fetch failure for the single series aborts `getThroughput` with
the wrapped error; with `archiveFail` the metadata failure alone aborts it. -/
theorem C7_error_aborts_witness :
    getThroughput archiveDataFail "h1" "h2" {} =
      (Request.list (sentParams (throughputQuery "h1" "h2")) ::
        (throughputTraceOk {} [] ++ [dataRequest (throughputFetchParams {} metaThroughput)]),
       .error (wrapError "Failed to get measurement data" axiosErr500)) ∧
    getThroughput archiveFail "h1" "h2" {} =
      ([Request.list (sentParams (throughputQuery "h1" "h2"))],
       .error (wrapError "Failed to query measurements" axiosErr500)) := by
  have h := C7_error_aborts archiveDataFail "h1" "h2" {} axiosErr500 [] []
    metaThroughput "x"
  have h2 := C7_error_aborts archiveFail "h1" "h2" {} axiosErr500 [] []
    metaThroughput "x"
  exact ⟨h.2.2.2.2.1 rfl (fun m' hm' _ => absurd hm' (List.not_mem_nil m')) rfl rfl,
         h2.1 rfl⟩

/-- C9 (witness): for host `h` and the foreign URI `x`, the handlers
behave as `C9_single_resource` states. -/
theorem C9_single_resource_witness :
    listResources "h" = ["perfsonar://h/archive"] ∧
    readResource emptyArchive "h" (resourceUri "h") =
      queryMeasurements emptyArchive {} ∧
    readResource emptyArchive "h" "x" = ([], .error "Unknown resource: x") := by
  have h := C9_single_resource emptyArchive "h" "x"
  exact ⟨by rw [h.1]; decide, h.2.2.1, h.2.2.2 (by decide)⟩

end PerfSONAR
